import Mathlib

/-!
Verification of the check-in scoring and state-update pipeline of
`src/main.py` (mental_health_tree).

The embedding models the pipeline's pure logic directly from the source:

* Python string operations used by the source (`in` substring test,
  `str.lower()`, `str.strip()`) are modelled over `List Char`
  (`containsCL`, `lowerCL`, `pyStrip`); lowering is ASCII, matching the
  inputs the source compares against.
* The JSON file is modelled as a `Storage` blob that is absent, present
  but unparseable, or holds a parsed `PersistedDocument`, per the
  source's `load_data`/`save_data` (lines 85-104).
* The two external Gemini calls are modelled as parameters: `classify`
  gives the raw classifier response text (consulted only when
  `analyze_text` reaches the remote call), and `gen` is the feedback
  generation result, `Except.error e` standing for a raised exception
  whose rendered message is `e`.
* `datetime.now().strftime` is the parameter `today_str`.
-/

/-- Prefix test on character lists: models matching a Python substring
candidate at the head of the remaining text. -/
def isPrefixCL : List Char → List Char → Bool
  | [], _ => true
  | _ :: _, [] => false
  | a :: as, b :: bs => a == b && isPrefixCL as bs

/-- Contiguous-substring test on character lists: models Python's
`needle in haystack` on strings. -/
def containsCL (needle : List Char) : List Char → Bool
  | [] => isPrefixCL needle []
  | c :: cs => isPrefixCL needle (c :: cs) || containsCL needle cs

/-- Models Python `str.lower()` (ASCII lowering, which covers every
character the source compares against). -/
def lowerCL (s : List Char) : List Char := s.map Char.toLower

/-- Models Python `str.strip()`: drop leading and trailing whitespace. -/
def pyStrip (s : List Char) : List Char :=
  ((s.dropWhile Char.isWhitespace).reverse.dropWhile Char.isWhitespace).reverse

/-- A check-in request body (`CheckinRequest`, main.py lines 28-34):
four slider ratings and the free text. -/
structure CheckinRequest where
  mood : Int
  anxiety : Int
  motivation : Int
  connection : Int
  free_text : List Char
deriving DecidableEq

/-- The response body (`CheckinResponse`, main.py lines 36-41). -/
structure CheckinResponse where
  mood_rating : String
  feedback : String
  new_health_score : Int
  is_emergency : Bool
deriving DecidableEq

/-- One persisted check-in entry (the dict built at main.py
lines 249-256). -/
structure CheckinEntry where
  date : String
  mcq_score : Int
  sentiment : String
  mood : String
  free_text : List Char
  feedback : String
deriving DecidableEq

/-- The persisted document: `entries` list plus `current_health`
(main.py line 99). -/
structure PersistedDocument where
  entries : List CheckinEntry
  current_health : Int
deriving DecidableEq

/-- The state of the underlying JSON file: absent, present but failing
to parse, or parsed content. -/
inductive Storage where
  | absent : Storage
  | corrupt : Storage
  | stored : PersistedDocument → Storage
deriving DecidableEq

/-- `load_data` (main.py lines 85-99): the parsed document when the file
exists and parses; the default `{entries: [], current_health: 50}` when
the file is absent or raises `json.JSONDecodeError`. -/
def load_data : Storage → PersistedDocument
  | Storage.absent => { entries := [], current_health := 50 }
  | Storage.corrupt => { entries := [], current_health := 50 }
  | Storage.stored doc => doc

/-- `save_data` (main.py lines 101-104): rewrites the whole file with the
serialized document, replacing any prior content. -/
def save_data (_store : Storage) (data : PersistedDocument) : Storage :=
  Storage.stored data

/-- `analyze_text` (main.py lines 110-135). `classify` is the raw remote
response text of the Gemini sentiment call; the returned Bool records
whether that remote call was made. The source returns early with
"neutral" when `not text.strip()`, else lowers the stripped response and
normalizes it by substring containment. -/
def analyze_text (text : List Char) (classify : List Char → String) :
    String × Bool :=
  if (pyStrip text).isEmpty then ("neutral", false)
  else
    let sentiment := lowerCL (pyStrip (classify text).data)
    if containsCL "positive".data sentiment then ("positive", true)
    else if containsCL "negative".data sentiment then ("negative", true)
    else ("neutral", true)

/-- The sentiment adjustment of `get_mood_rating` (main.py lines
146-150): +2 for positive, -2 for negative, else unchanged. -/
def adjusted_score (mcq_score : Int) (sentiment : String) : Int :=
  if sentiment = "positive" then mcq_score + 2
  else if sentiment = "negative" then mcq_score - 2
  else mcq_score

/-- `get_mood_rating` (main.py lines 137-157): thresholds 21 and 13 on
the adjusted score. -/
def get_mood_rating (mcq_score : Int) (sentiment : String) : String :=
  let base_score := adjusted_score mcq_score sentiment
  if base_score ≥ 21 then "Good"
  else if base_score ≥ 13 then "Moderate"
  else "Low"

/-- `generate_feedback` (main.py lines 159-198). `gen` is the outcome of
the remote generation call: `Except.ok t` is the response text, and
`Except.error e` a raised exception rendered as `e`, producing the
fallback message with the error detail appended. -/
def generate_feedback (_mcq_score : Int) (_sentiment : String)
    (_free_text : List Char) (gen : Except String String) : String :=
  match gen with
  | Except.ok responseText =>
      let feedback := String.mk (pyStrip responseText.data)
      if feedback = "" then
        "Thank you for checking in. Your entry has been logged."
      else feedback
  | Except.error e =>
      "Sorry, there was an error generating feedback. " ++
        "Your check-in is still saved. (Error: " ++ e ++ ")"

/-- `create_checkin` (main.py lines 205-267): score the sliders, resolve
sentiment and mood, generate feedback, update and clamp the health,
apply the emergency override, append the entry and save, and build the
response. -/
def create_checkin (request : CheckinRequest)
    (classify : List Char → String) (gen : Except String String)
    (today_str : String) (store : Storage) : Storage × CheckinResponse :=
  let mcq_score :=
    request.mood + request.anxiety + request.motivation + request.connection
  let sentiment := (analyze_text request.free_text classify).1
  let mood_rating := get_mood_rating mcq_score sentiment
  let feedback := generate_feedback mcq_score sentiment request.free_text gen
  let data := load_data store
  let current_health := data.current_health
  let current_health :=
    if mood_rating = "Good" then current_health + 5
    else if mood_rating = "Moderate" then current_health + 1
    else if mood_rating = "Low" then current_health - 5
    else current_health
  let current_health := max 0 (min 100 current_health)
  let is_emergency := containsCL "die".data (lowerCL request.free_text)
  let current_health := if is_emergency then 7 else current_health
  let new_entry : CheckinEntry :=
    { date := today_str, mcq_score := mcq_score, sentiment := sentiment,
      mood := mood_rating, free_text := request.free_text,
      feedback := feedback }
  let data : PersistedDocument :=
    { entries := data.entries ++ [new_entry],
      current_health := current_health }
  (save_data store data,
   { mood_rating := mood_rating, feedback := feedback,
     new_health_score := current_health, is_emergency := is_emergency })

/-- The health-to-image tier mapping of `get_tree_health` (main.py lines
279-288). -/
def tree_image_file (health : Int) : String :=
  if health > 80 then "tree-flourishing.png"
  else if health > 60 then "tree-healthy.png"
  else if health > 40 then "tree-neutral.png"
  else if health > 20 then "tree-wilting.png"
  else "tree-rotting.png"

/-- `get_tree_health` (main.py lines 269-290): load the document, map
its health to a tier image, and return both; the storage is returned
unchanged because the handler never writes. -/
def get_tree_health (store : Storage) : Storage × Int × String :=
  let health := (load_data store).current_health
  (store, health, tree_image_file health)

/-- The per-mood health delta stated by the spec (+5 Good, +1 Moderate,
-5 Low), against which the inline update of `create_checkin` (main.py
lines 231-236) is compared. -/
def health_delta (mood_rating : String) : Int :=
  if mood_rating = "Good" then 5
  else if mood_rating = "Moderate" then 1
  else if mood_rating = "Low" then -5
  else 0

/-- Every mood rating returned by `get_mood_rating` is one of the three
labels Good, Moderate, Low. -/
lemma get_mood_rating_cases (mcq_score : Int) (sentiment : String) :
    get_mood_rating mcq_score sentiment = "Good"
    ∨ get_mood_rating mcq_score sentiment = "Moderate"
    ∨ get_mood_rating mcq_score sentiment = "Low" := by
  simp only [get_mood_rating]
  split_ifs <;> simp

/-- The stripped text is empty exactly when every character of the text
is whitespace. -/
lemma pyStrip_isEmpty_iff (s : List Char) :
    (pyStrip s).isEmpty = true ↔ ∀ c ∈ s, c.isWhitespace = true := by
  rw [List.isEmpty_iff]
  unfold pyStrip
  rw [List.reverse_eq_nil_iff, List.dropWhile_eq_nil_iff]
  constructor
  · intro h c hc
    have hs := List.takeWhile_append_dropWhile (p := Char.isWhitespace) (l := s)
    rw [← hs] at hc
    rcases List.mem_append.mp hc with h1 | h2
    · exact List.mem_takeWhile_imp h1
    · exact h c (List.mem_reverse.mpr h2)
  · intro h c hc
    exact h c ((List.dropWhile_sublist _).mem (List.mem_reverse.mp hc))

/-- C1: for every four integer ratings and every sentiment label among
positive, neutral, negative, the adjusted score is the sum of the four
ratings plus 2 if positive, minus 2 if negative, plus 0 if neutral, and
the mood rating is Good when the adjusted score is at least 21, Moderate
when it is between 13 and 20 inclusive, and Low below 13. -/
theorem C1_adjusted_score_and_mood (m a mo c : Int) (s : String)
    (hs : s = "positive" ∨ s = "neutral" ∨ s = "negative") :
    adjusted_score (m + a + mo + c) s
      = m + a + mo + c
        + (if s = "positive" then 2 else if s = "negative" then -2 else 0)
    ∧ get_mood_rating (m + a + mo + c) s
      = (if adjusted_score (m + a + mo + c) s ≥ 21 then "Good"
         else if adjusted_score (m + a + mo + c) s ≥ 13 then "Moderate"
         else "Low") := by
  rcases hs with rfl | rfl | rfl <;>
    refine ⟨by simp [adjusted_score] <;> omega, rfl⟩

/-- C1 witness: ratings (5,5,5,5) with positive sentiment give adjusted
score 22 and mood Good. -/
theorem C1_witness :
    adjusted_score (5 + 5 + 5 + 5) "positive"
      = 5 + 5 + 5 + 5
        + (if ("positive" : String) = "positive" then 2
           else if ("positive" : String) = "negative" then -2 else 0)
    ∧ get_mood_rating (5 + 5 + 5 + 5) "positive"
      = (if adjusted_score (5 + 5 + 5 + 5) "positive" ≥ 21 then "Good"
         else if adjusted_score (5 + 5 + 5 + 5) "positive" ≥ 13 then "Moderate"
         else "Low") :=
  C1_adjusted_score_and_mood 5 5 5 5 "positive" (Or.inl rfl)

/-- C2: for every check-in, the emergency flag is true exactly when the
free text contains the case-insensitive substring die, and when the flag
is true the stored health after the check-in, and the returned health,
are exactly the constant 7 (the delta is overridden, not combined). -/
theorem C2_emergency_flag_and_override (request : CheckinRequest)
    (classify : List Char → String) (gen : Except String String)
    (today_str : String) (store : Storage) :
    ((create_checkin request classify gen today_str store).2.is_emergency = true
      ↔ containsCL "die".data (lowerCL request.free_text) = true)
    ∧ ((create_checkin request classify gen today_str store).2.is_emergency = true →
        (load_data (create_checkin request classify gen today_str store).1).current_health = 7
        ∧ (create_checkin request classify gen today_str store).2.new_health_score = 7) := by
  by_cases hd : containsCL "die".data (lowerCL request.free_text) = true <;>
    simp [create_checkin, save_data, load_data, hd]

/-- C3: for every current health in [0,100], a non-emergency check-in
stores clamp(h + delta, 0, 100) where delta is +5 for Good, +1 for
Moderate and -5 for Low, and the response reports the same value. -/
theorem C3_clamped_delta (request : CheckinRequest)
    (classify : List Char → String) (gen : Except String String)
    (today_str : String) (store : Storage)
    (h0 : 0 ≤ (load_data store).current_health)
    (h1 : (load_data store).current_health ≤ 100)
    (hne : containsCL "die".data (lowerCL request.free_text) = false) :
    (load_data (create_checkin request classify gen today_str store).1).current_health
      = max 0 (min 100 ((load_data store).current_health
          + health_delta (get_mood_rating
              (request.mood + request.anxiety + request.motivation + request.connection)
              (analyze_text request.free_text classify).1)))
    ∧ (create_checkin request classify gen today_str store).2.new_health_score
      = max 0 (min 100 ((load_data store).current_health
          + health_delta (get_mood_rating
              (request.mood + request.anxiety + request.motivation + request.connection)
              (analyze_text request.free_text classify).1))) := by
  have hm := get_mood_rating_cases
      (request.mood + request.anxiety + request.motivation + request.connection)
      (analyze_text request.free_text classify).1
  rcases hm with hm | hm | hm <;>
    simp [create_checkin, save_data, load_data, health_delta, hm, hne] <;> omega

/-- C3 witness: starting health 98 with all ratings 5 and positive
sentiment (mood Good) clamps to 100, not 103. -/
theorem C3_witness :
    0 ≤ (load_data (Storage.stored { entries := [], current_health := 98 })).current_health
    ∧ (load_data (Storage.stored { entries := [], current_health := 98 })).current_health ≤ 100
    ∧ containsCL "die".data
        (lowerCL (CheckinRequest.mk 5 5 5 5 "I feel great".data).free_text) = false
    ∧ ((load_data (create_checkin (CheckinRequest.mk 5 5 5 5 "I feel great".data)
          (fun _ => "positive") (Except.ok "nice") "2026-01-01"
          (Storage.stored { entries := [], current_health := 98 })).1).current_health
        = max 0 (min 100 ((load_data (Storage.stored { entries := [], current_health := 98 })).current_health
            + health_delta (get_mood_rating
                ((CheckinRequest.mk 5 5 5 5 "I feel great".data).mood
                  + (CheckinRequest.mk 5 5 5 5 "I feel great".data).anxiety
                  + (CheckinRequest.mk 5 5 5 5 "I feel great".data).motivation
                  + (CheckinRequest.mk 5 5 5 5 "I feel great".data).connection)
                (analyze_text (CheckinRequest.mk 5 5 5 5 "I feel great".data).free_text
                  (fun _ => "positive")).1)))
      ∧ (create_checkin (CheckinRequest.mk 5 5 5 5 "I feel great".data)
          (fun _ => "positive") (Except.ok "nice") "2026-01-01"
          (Storage.stored { entries := [], current_health := 98 })).2.new_health_score
        = max 0 (min 100 ((load_data (Storage.stored { entries := [], current_health := 98 })).current_health
            + health_delta (get_mood_rating
                ((CheckinRequest.mk 5 5 5 5 "I feel great".data).mood
                  + (CheckinRequest.mk 5 5 5 5 "I feel great".data).anxiety
                  + (CheckinRequest.mk 5 5 5 5 "I feel great".data).motivation
                  + (CheckinRequest.mk 5 5 5 5 "I feel great".data).connection)
                (analyze_text (CheckinRequest.mk 5 5 5 5 "I feel great".data).free_text
                  (fun _ => "positive")).1)))) :=
  ⟨by decide, by decide, by decide,
   C3_clamped_delta (CheckinRequest.mk 5 5 5 5 "I feel great".data)
     (fun _ => "positive") (Except.ok "nice") "2026-01-01"
     (Storage.stored { entries := [], current_health := 98 })
     (by decide) (by decide) (by decide)⟩

/-- C4: the tree-health tier mapping is total on [0,100] with no gaps:
81-100 flourishing, 61-80 healthy, 41-60 neutral, 21-40 wilting, 0-20
rotting; the query returns the numeric health with the tier identifier
and does not mutate the stored document. -/
theorem C4_tier_mapping (h : Int) (store : Storage)
    (h0 : 0 ≤ h) (h1 : h ≤ 100) :
    (81 ≤ h → tree_image_file h = "tree-flourishing.png")
    ∧ (61 ≤ h ∧ h ≤ 80 → tree_image_file h = "tree-healthy.png")
    ∧ (41 ≤ h ∧ h ≤ 60 → tree_image_file h = "tree-neutral.png")
    ∧ (21 ≤ h ∧ h ≤ 40 → tree_image_file h = "tree-wilting.png")
    ∧ (h ≤ 20 → tree_image_file h = "tree-rotting.png")
    ∧ get_tree_health store
      = (store, (load_data store).current_health,
         tree_image_file (load_data store).current_health) := by
  refine ⟨?_, ?_, ?_, ?_, ?_, rfl⟩ <;>
    · intro hr
      simp only [tree_image_file]
      split_ifs <;> first | rfl | omega

/-- C4 witness: health 75 is in range and maps to the healthy tier; the
query on a stored document with health 75 returns it unchanged. -/
theorem C4_witness :
    0 ≤ (75 : Int) ∧ (75 : Int) ≤ 100
    ∧ ((81 ≤ (75 : Int) → tree_image_file 75 = "tree-flourishing.png")
      ∧ (61 ≤ (75 : Int) ∧ (75 : Int) ≤ 80 → tree_image_file 75 = "tree-healthy.png")
      ∧ (41 ≤ (75 : Int) ∧ (75 : Int) ≤ 60 → tree_image_file 75 = "tree-neutral.png")
      ∧ (21 ≤ (75 : Int) ∧ (75 : Int) ≤ 40 → tree_image_file 75 = "tree-wilting.png")
      ∧ ((75 : Int) ≤ 20 → tree_image_file 75 = "tree-rotting.png")
      ∧ get_tree_health (Storage.stored { entries := [], current_health := 75 })
        = (Storage.stored { entries := [], current_health := 75 },
           (load_data (Storage.stored { entries := [], current_health := 75 })).current_health,
           tree_image_file (load_data (Storage.stored { entries := [], current_health := 75 })).current_health)) :=
  ⟨by decide, by decide,
   C4_tier_mapping 75 (Storage.stored { entries := [], current_health := 75 })
     (by decide) (by decide)⟩

/-- C5: `load_data` returns the default document, empty entries and
health 50, whenever the storage is absent or fails to parse; the failure
is absorbed, never propagated (the function is total on every storage
state by construction). -/
theorem C5_load_absorbs_failures (s : Storage)
    (h : s = Storage.absent ∨ s = Storage.corrupt) :
    load_data s = { entries := [], current_health := 50 } := by
  rcases h with rfl | rfl <;> rfl

/-- C5 witness: an absent store loads as the default document. -/
theorem C5_witness :
    (Storage.absent = Storage.absent ∨ Storage.absent = Storage.corrupt)
    ∧ load_data Storage.absent = { entries := [], current_health := 50 } :=
  ⟨Or.inl rfl, C5_load_absorbs_failures Storage.absent (Or.inl rfl)⟩

/-- C6 counterexample: when generation fails, the substituted feedback
is not literally the fixed sentence the claim quotes; the code appends
the error detail in parentheses. -/
theorem C6_counterexample :
    ¬ (generate_feedback 4 "neutral" [] (Except.error "x")
        = "Sorry, there was an error generating feedback. Your check-in is still saved.") := by
  decide

/-- C6 (amended): when the feedback generation call fails, the feedback
substituted into the response and the persisted entry is the fixed
fallback sentence with the error detail appended in parentheses, and
the check-in is still persisted: the entry carrying that fallback
feedback is appended and saved. -/
theorem C6_fallback_and_persistence (request : CheckinRequest)
    (classify : List Char → String) (e : String)
    (today_str : String) (store : Storage) :
    generate_feedback
        (request.mood + request.anxiety + request.motivation + request.connection)
        (analyze_text request.free_text classify).1
        request.free_text (Except.error e)
      = "Sorry, there was an error generating feedback. " ++
          "Your check-in is still saved. (Error: " ++ e ++ ")"
    ∧ (load_data (create_checkin request classify (Except.error e) today_str store).1).entries
      = (load_data store).entries ++
          [{ date := today_str,
             mcq_score := request.mood + request.anxiety
               + request.motivation + request.connection,
             sentiment := (analyze_text request.free_text classify).1,
             mood := get_mood_rating
               (request.mood + request.anxiety + request.motivation
                 + request.connection)
               (analyze_text request.free_text classify).1,
             free_text := request.free_text,
             feedback := "Sorry, there was an error generating feedback. " ++
               "Your check-in is still saved. (Error: " ++ e ++ ")" }] :=
  ⟨rfl, rfl⟩

/-- C7: for every free text that is empty or consists only of
whitespace, the sentiment is resolved as neutral locally without
invoking the external classifier; the classifier is called exactly when
the text is not whitespace-only. -/
theorem C7_whitespace_shortcut (text : List Char)
    (classify : List Char → String) :
    ((∀ c ∈ text, c.isWhitespace = true) →
      analyze_text text classify = ("neutral", false))
    ∧ ((analyze_text text classify).2 = true
        ↔ ¬ ∀ c ∈ text, c.isWhitespace = true) := by
  constructor
  · intro hw
    simp [analyze_text, (pyStrip_isEmpty_iff text).mpr hw]
  · by_cases hw : ∀ c ∈ text, c.isWhitespace = true
    · simp only [analyze_text, (pyStrip_isEmpty_iff text).mpr hw, if_true]
      simpa using hw
    · have hne : (pyStrip text).isEmpty = false := by
        cases hb : (pyStrip text).isEmpty
        · rfl
        · exact absurd ((pyStrip_isEmpty_iff text).mp hb) hw
      simp only [analyze_text, hne, Bool.false_eq_true, if_false]
      constructor
      · intro _; exact hw
      · intro _
        split_ifs <;> rfl

/-- C8: saving a document and then loading returns a document equal to
the one saved, same entries in the same order and same health value. -/
theorem C8_round_trip (s : Storage) (d : PersistedDocument) :
    load_data (save_data s d) = d := rfl

/-- C9: every completed check-in appends exactly one new entry at the
end of the entry sequence, leaves every previously stored entry
unchanged, and besides the entry list modifies only the document's
health field (the saved document is exactly the loaded entries plus the
one new entry, with the response's health value). -/
theorem C9_append_only (request : CheckinRequest)
    (classify : List Char → String) (gen : Except String String)
    (today_str : String) (store : Storage) :
    (create_checkin request classify gen today_str store).1
      = Storage.stored
          { entries := (load_data store).entries ++
              [{ date := today_str,
                 mcq_score := request.mood + request.anxiety
                   + request.motivation + request.connection,
                 sentiment := (analyze_text request.free_text classify).1,
                 mood := get_mood_rating
                   (request.mood + request.anxiety + request.motivation
                     + request.connection)
                   (analyze_text request.free_text classify).1,
                 free_text := request.free_text,
                 feedback := generate_feedback
                   (request.mood + request.anxiety + request.motivation
                     + request.connection)
                   (analyze_text request.free_text classify).1
                   request.free_text gen }],
            current_health :=
              (create_checkin request classify gen today_str store).2.new_health_score } := rfl

/-- C10: after every completed check-in the response's new_health_score
equals the current_health written to the persisted document, and that
value lies in [0,100] even when the previously stored health was out of
range. -/
theorem C10_response_matches_stored_and_bounded (request : CheckinRequest)
    (classify : List Char → String) (gen : Except String String)
    (today_str : String) (store : Storage) :
    (load_data (create_checkin request classify gen today_str store).1).current_health
      = (create_checkin request classify gen today_str store).2.new_health_score
    ∧ 0 ≤ (create_checkin request classify gen today_str store).2.new_health_score
    ∧ (create_checkin request classify gen today_str store).2.new_health_score ≤ 100 := by
  refine ⟨rfl, ?_, ?_⟩ <;>
    · simp only [create_checkin]
      split_ifs <;> omega
